import Mathlib

/-!
Verification of the `ic-ml` product recommendation engine and taxonomy slug
validator (`src/product_recommendation_engine.py`, `src/health_quiz_models.py`,
`src/run_assign_cat.py`).

Modelling conventions:
* Python `float` values are modelled as exact rationals (`ℚ`); the code only
  adds, multiplies, divides and compares small decimals, so no claim depends on
  floating-point rounding.
* `math.log10` is transcendental, so the embedding is parametric in a function
  `log10f : ℕ → ℚ`; claims needing facts about it state them as hypotheses.
* Python strings are Lean `String`s; `s.lower()`, `s.strip()`, the substring
  test `a in b` and `s.replace(a, b)` are given explicit executable models
  (`pyLower`, `pyStrip`, `pyIn`, `pyReplace`) over the character list.
* `difflib.get_close_matches(s, slugs, n=1, cutoff=0.8)` is a Python standard
  library routine, modelled as an abstract parameter
  `fz : String → List String → Option String`.
* Exceptions are modelled with `Except String`.
-/

/-- Python `needle in haystack` on character lists: `pat` occurs contiguously. -/
def listContains (pat : List Char) : List Char → Bool
  | [] => pat.isEmpty
  | c :: cs => pat.isPrefixOf (c :: cs) || listContains pat cs

/-- Python substring test `needle in hay`. -/
def pyIn (needle hay : String) : Bool :=
  listContains needle.data hay.data

/-- Python `str.lower()` (the strings in this code base are ASCII). -/
def pyLower (s : String) : String :=
  ⟨s.data.map Char.toLower⟩

/-- Python `str.strip()`: remove leading and trailing whitespace. -/
def pyStrip (s : String) : String :=
  ⟨((s.data.dropWhile Char.isWhitespace).reverse.dropWhile Char.isWhitespace).reverse⟩

/-- Replace every (non-overlapping, leftmost-first) occurrence of `pat`.
    Structural recursion on a fuel bound (the input length suffices: each
    replaced occurrence of a nonempty `pat` consumes at least one character,
    every other step consumes exactly one). -/
def replaceList (pat rep : List Char) : ℕ → List Char → List Char
  | _, [] => []
  | 0, l => l
  | fuel + 1, c :: cs =>
    if pat ≠ [] ∧ pat.isPrefixOf (c :: cs) then
      rep ++ replaceList pat rep fuel ((c :: cs).drop pat.length)
    else
      c :: replaceList pat rep fuel cs

/-- Python `str.replace(pat, rep)` (with nonempty `pat`). -/
def pyReplace (s pat rep : String) : String :=
  ⟨replaceList pat.data rep.data s.data.length s.data⟩

/-- A character matched by the regex `\w` (ASCII view). -/
def isWordChar (c : Char) : Bool :=
  c.isAlphanum || c = '_'

/-- Split a character list into the maximal runs of word characters,
    i.e. `re.findall(r'\b\w+\b', text)`. -/
def splitWordRuns : List Char → List Char → List (List Char)
  | acc, [] => if acc.isEmpty then [] else [acc.reverse]
  | acc, c :: cs =>
    if isWordChar c then
      splitWordRuns (c :: acc) cs
    else
      (if acc.isEmpty then [] else [acc.reverse]) ++ splitWordRuns [] cs

/-- `re.findall(r'\b\w+\b', text)` as strings. -/
def findWords (s : String) : List String :=
  (splitWordRuns [] s.data).map (fun l => ⟨l⟩)

/-! ## Data model (`health_quiz_models.py`) -/

/-- `HealthQuizInput` dataclass, fields as declared (before `__post_init__`
    optional fields are `Option`s). -/
structure HealthQuizInput where
  health_issue_description : String
  tried_already : Option String := none
  primary_health_areas : Option (List String) := none
  primary_health_area : Option String := none
  secondary_health_area : Option String := none
  age_range : Option String := none
  severity_level : Option Int := none
  budget_preference : Option String := none
  lifestyle_factors : Option String := none
  utm_medium : Option String := none
deriving Repr, DecidableEq

/-- Truthiness of an optional Python string (`None` and `""` are falsy). -/
def optStrTruthy : Option String → Bool
  | none => false
  | some s => s ≠ ""

/-- `HealthQuizInput.__post_init__`: normalize `primary_health_areas`.
    A dataclass runs this at every construction. -/
def HealthQuizInput.postInit (x : HealthQuizInput) : HealthQuizInput :=
  -- If primary_health_areas is not set but primary_health_area is (legacy)
  let areas1 : Option (List String) :=
    match x.primary_health_area with
    | some s =>
      if (x.primary_health_areas.getD []).isEmpty ∧ s ≠ "" then some [s]
      else x.primary_health_areas
    | none => x.primary_health_areas
  -- If secondary_health_area is set (legacy), add it to primary_health_areas
  let areas2 : Option (List String) :=
    match x.secondary_health_area with
    | some t =>
      if t ≠ "" ∧ t ∉ (areas1.getD []) then
        some ((if (areas1.getD []).isEmpty then [] else areas1.getD []) ++ [t])
      else areas1
    | none => areas1
  -- Ensure primary_health_areas is always a list (even if empty)
  let areas3 : Option (List String) :=
    match areas2 with
    | none => some []
    | some l => some l
  { x with primary_health_areas := areas3 }

/-- `ProductRecommendation` dataclass. -/
structure ProductRecommendation where
  product_id : String
  title : String
  description : String
  category : String
  relevance_score : ℚ
  purchase_link : String
  rationale : String
  ingredient_highlights : List String
deriving Repr, DecidableEq

/-! ## Data model (`product_recommendation_engine.py`) -/

/-- `ProductCatalogItem` dataclass. -/
structure ProductCatalogItem where
  id : String
  title : String
  description : String
  short_description : String := ""
  ingredients : List String := []
  categories : List String := []
  subcategories : List String := []
  price : Option ℚ := none
  in_stock : Bool := true
  rating : Option ℚ := none
  review_count : ℕ := 0
  tags : List String := []
  contraindications : List String := []
  benefits : List String := []
  slug : String := ""
deriving Repr, DecidableEq

/-- `CategoryMatcher.category_mappings` (health category → product keywords). -/
def category_mappings : List (String × List String) :=
  [("immune_support", ["immune", "immunity", "defense", "elderberry", "echinacea"]),
   ("digestive_health", ["digestive", "stomach", "gut", "digestion", "probiotics"]),
   ("stress_relief", ["stress", "anxiety", "calm", "relaxation", "adaptogen"]),
   ("sleep_support", ["sleep", "insomnia", "rest", "melatonin", "chamomile"]),
   ("joint_health", ["joint", "arthritis", "inflammation", "mobility", "turmeric"]),
   ("cardiovascular_health", ["heart", "cardiovascular", "circulation", "blood_pressure"]),
   ("respiratory_health", ["respiratory", "lungs", "breathing", "cough", "throat"]),
   ("skin_health", ["skin", "beauty", "complexion", "acne", "dermatology"]),
   ("cognitive_support", ["brain", "memory", "focus", "concentration", "cognitive"]),
   ("energy_vitality", ["energy", "vitality", "fatigue", "endurance", "stamina"]),
   ("women_health", ["women", "female", "menstrual", "hormonal", "menopause"]),
   ("men_health", ["men", "male", "prostate", "testosterone", "masculine"]),
   ("detox_cleanse", ["detox", "cleanse", "liver", "kidney", "purify"]),
   ("weight_management", ["weight", "metabolism", "diet", "fat", "slimming"]),
   ("anti_aging", ["anti-aging", "longevity", "antioxidant", "youth", "aging"]),
   ("inflammation", ["inflammation", "anti-inflammatory", "swelling", "pain"]),
   ("mood_emotional", ["mood", "emotional", "depression", "happiness", "well-being"]),
   ("liver_support", ["liver", "hepatic", "detox", "cleanse"]),
   ("kidney_health", ["kidney", "renal", "urinary", "bladder"]),
   ("hormonal_balance", ["hormonal", "hormone", "endocrine", "balance"])]

/-- `CategoryMatcher.ingredient_benefits` (ingredient → health benefits). -/
def ingredient_benefits : List (String × List String) :=
  [("turmeric", ["inflammation", "joint_health", "antioxidant"]),
   ("ginger", ["digestive_health", "nausea", "inflammation"]),
   ("echinacea", ["immune_support", "respiratory_health"]),
   ("elderberry", ["immune_support", "antioxidant"]),
   ("ashwagandha", ["stress_relief", "energy_vitality", "adaptogen"]),
   ("chamomile", ["sleep_support", "stress_relief", "digestive_health"]),
   ("ginseng", ["energy_vitality", "cognitive_support", "stress_relief"]),
   ("milk_thistle", ["liver_support", "detox_cleanse"]),
   ("valerian", ["sleep_support", "anxiety", "stress_relief"]),
   ("garlic", ["cardiovascular_health", "immune_support"]),
   ("ginkgo", ["cognitive_support", "circulation"]),
   ("rhodiola", ["stress_relief", "energy_vitality", "mood_emotional"])]

/-- `CategoryMatcher.get_category_keywords`. -/
def get_category_keywords (health_category : String) : List String :=
  (category_mappings.lookup (pyLower health_category)).getD []

/-- `CategoryMatcher.get_ingredient_benefits`: first table entry whose
    normalized key contains or is contained in the normalized ingredient. -/
def get_ingredient_benefits (ingredient : String) : List String :=
  let ingredient_lower := pyReplace (pyLower ingredient) "_" " "
  match ingredient_benefits.find? (fun kv =>
      let key_normalized := pyReplace (pyLower kv.1) "_" " "
      pyIn key_normalized ingredient_lower || pyIn ingredient_lower key_normalized) with
  | some kv => kv.2
  | none => []

/-! ## `ProductScoringEngine` -/

/-- The `categories_to_check` list of `_score_category_match`:
    primary health area with full weight, legacy secondary with weight 0.7. -/
def categoriesToCheck (quiz_input : HealthQuizInput) : List (String × ℚ) :=
  (match quiz_input.primary_health_area with
   | some s => if s ≠ "" then [(s, 1)] else []
   | none => []) ++
  (match quiz_input.secondary_health_area with
   | some s => if s ≠ "" then [(s, 7/10)] else []
   | none => [])

/-- Contribution of one `(health_category, weight)` pair in the
    `_score_category_match` loop: `+5*weight` per product category tag that
    contains a keyword, plus `min(3, keyword_matches)*weight` for keyword hits
    in title+description. -/
def categoryCheckContribution (product : ProductCatalogItem) (hcw : String × ℚ) : ℚ :=
  let keywords := get_category_keywords hcw.1
  let catHits :=
    (product.categories.filter (fun pc => keywords.any (fun kw => pyIn kw (pyLower pc)))).length
  let combined_text := pyLower (product.title ++ " " ++ product.description)
  let keyword_matches := (keywords.filter (fun kw => pyIn kw combined_text)).length
  (catHits : ℚ) * (5 * hcw.2) +
    (if 0 < keyword_matches then min 3 (keyword_matches : ℚ) * hcw.2 else 0)

/-- `ProductScoringEngine._score_category_match`; the loop accumulates the
    per-check contributions, modelled as their sum. -/
def _score_category_match (product : ProductCatalogItem) (quiz_input : HealthQuizInput) :
    ℚ × ℚ :=
  (((categoriesToCheck quiz_input).map (categoryCheckContribution product)).sum, 10)

/-- The `llm_context` argument: `None`/missing key give no herb list. -/
def llmHerbs : Option (List String) → List String
  | none => []
  | some hs => hs

/-- `+k` when a truthy health-area field's value occurs in the benefit list
    (`quiz_input.primary_health_area and quiz_input.primary_health_area in benefits`). -/
def areaBonus (o : Option String) (benefits : List String) (k : ℚ) : ℚ :=
  match o with
  | some s => if s ≠ "" ∧ s ∈ benefits then k else 0
  | none => 0

/-- Contribution of one ingredient in the `_score_ingredient_match` loop:
    +3 if its benefits contain the primary area, +2 for the secondary area,
    +2 per LLM herb category occurring in the ingredient name. -/
def ingredientContribution (quiz_input : HealthQuizInput)
    (llm_context : Option (List String)) (ingredient : String) : ℚ :=
  let benefits := get_ingredient_benefits ingredient
  areaBonus quiz_input.primary_health_area benefits 3 +
  areaBonus quiz_input.secondary_health_area benefits 2 +
  2 * (((llmHerbs llm_context).filter
        (fun herb => pyIn (pyLower herb) (pyLower ingredient))).length : ℚ)

/-- `ProductScoringEngine._score_ingredient_match` (result capped at the max). -/
def _score_ingredient_match (product : ProductCatalogItem) (quiz_input : HealthQuizInput)
    (llm_context : Option (List String)) : ℚ × ℚ :=
  (min ((product.ingredients.map (ingredientContribution quiz_input llm_context)).sum) 10, 10)

/-- Stop words of `_extract_key_terms`. -/
def stop_words : List String :=
  ["the", "and", "or", "but", "in", "on", "at", "to", "for", "of", "with", "by", "a", "an"]

/-- `ProductScoringEngine._extract_key_terms`. -/
def _extract_key_terms (text : String) : List String :=
  (findWords (pyLower text)).filter (fun word => 3 < word.length ∧ word ∉ stop_words)

/-- `ProductScoringEngine._score_text_similarity`. -/
def _score_text_similarity (product : ProductCatalogItem) (quiz_input : HealthQuizInput) :
    ℚ × ℚ :=
  let issue_words := _extract_key_terms quiz_input.health_issue_description
  let product_text :=
    pyLower (product.title ++ " " ++ product.description ++ " " ++
      String.intercalate " " product.tags)
  let matchCount := (issue_words.filter (fun word => pyIn word product_text)).length
  if 0 < issue_words.length then
    (((matchCount : ℚ) / (issue_words.length : ℚ)) * 10, 10)
  else
    (0, 10)

/-- `ProductScoringEngine._score_quality_factors`, parametric in `log10`. -/
def _score_quality_factors (log10f : ℕ → ℚ) (product : ProductCatalogItem) : ℚ × ℚ :=
  ((if product.in_stock then 3 else 0) +
   (match product.rating with
    | some r => if r ≠ 0 then (r / 5) * 4 else 0
    | none => 0) +
   (if 0 < product.review_count then min 3 (log10f product.review_count) else 0), 10)

/-- `ProductScoringEngine.calculate_relevance_score`: weighted sum of the four
    sub-scores divided by the weighted sum of their maxima (0 when the max
    is not positive). -/
def calculate_relevance_score (log10f : ℕ → ℚ) (product : ProductCatalogItem)
    (quiz_input : HealthQuizInput) (llm_context : Option (List String)) : ℚ :=
  let score :=
    (_score_category_match product quiz_input).1 * (4/10) +
    (_score_ingredient_match product quiz_input llm_context).1 * (3/10) +
    (_score_text_similarity product quiz_input).1 * (2/10) +
    (_score_quality_factors log10f product).1 * (1/10)
  let max_score :=
    (_score_category_match product quiz_input).2 * (4/10) +
    (_score_ingredient_match product quiz_input llm_context).2 * (3/10) +
    (_score_text_similarity product quiz_input).2 * (2/10) +
    (_score_quality_factors log10f product).2 * (1/10)
  if 0 < max_score then score / max_score else 0

/-! ## `ProductRecommendationEngine` -/

/-- `ProductRecommendationEngine._generate_purchase_link`. The engine reads
    `config.get('product_url_template', ...)`; the resolved template is the
    `url_template` argument here. Python `str.format` on the single recognized
    placeholder is modelled as replacing its occurrences. A missing slug raises
    `ValueError`, modelled as `Except.error`. -/
def _generate_purchase_link (url_template : String) (product : ProductCatalogItem) :
    Except String String :=
  if pyIn "\x7bproduct_slug\x7d" url_template then
    if product.slug = "" then
      Except.error ("Product " ++ product.id ++ " (" ++ product.title ++
        ") has no slug. Ensure WooCommerce export includes slug field.")
    else
      Except.ok (pyReplace url_template "\x7bproduct_slug\x7d" product.slug)
  else if pyIn "\x7bproduct_name\x7d" url_template then
    Except.ok (pyReplace url_template "\x7bproduct_name\x7d" product.title)
  else if pyIn "\x7bproduct_id\x7d" url_template then
    Except.ok (pyReplace url_template "\x7bproduct_id\x7d" product.id)
  else
    Except.ok url_template

/-- Decimal rendering of a rating for the rationale text (an f-string interpolating
    a Python float; the exact text never matters to any claim). -/
def ratingText (r : ℚ) : String :=
  toString r

/-- `ProductRecommendationEngine._generate_rationale`. -/
def _generate_rationale (product : ProductCatalogItem) (quiz_input : HealthQuizInput) :
    String :=
  let categoryPart : List String :=
    match quiz_input.primary_health_area with
    | some s =>
      if s ≠ "" ∧ (get_category_keywords s).any
          (fun kw => pyIn kw (pyLower product.title) || pyIn kw (pyLower product.description)) then
        ["Specifically formulated for " ++ s]
      else []
    | none => []
  let beneficial_ingredients :=
    product.ingredients.filter (fun ing => ¬(get_ingredient_benefits ing).isEmpty)
  let ingredientPart : List String :=
    if ¬beneficial_ingredients.isEmpty then
      ["Contains beneficial ingredients: " ++
        String.intercalate ", " (beneficial_ingredients.take 3)]
    else []
  let qualityPart : List String :=
    match product.rating with
    | some r =>
      if r ≠ 0 ∧ 4 ≤ r then ["Highly rated product (" ++ ratingText r ++ "/5.0)"] else []
    | none => []
  let rationale_parts := categoryPart ++ ingredientPart ++ qualityPart
  let rationale_parts :=
    if rationale_parts.isEmpty then
      ["Selected based on ingredient profile and category matching"]
    else rationale_parts
  String.intercalate ". " rationale_parts

/-- Truthy health-area field whose value occurs in a benefit list
    (`quiz_input.primary_health_area and quiz_input.primary_health_area in benefits`). -/
def healthAreaHit (o : Option String) (benefits : List String) : Bool :=
  match o with
  | some s => s != "" && benefits.contains s
  | none => false

/-- `ProductRecommendationEngine._get_key_ingredients`. -/
def _get_key_ingredients (product : ProductCatalogItem) (quiz_input : HealthQuizInput) :
    List String :=
  (product.ingredients.filter (fun ing =>
    let benefits := get_ingredient_benefits ing
    ¬benefits.isEmpty &&
      (healthAreaHit quiz_input.primary_health_area benefits ||
       healthAreaHit quiz_input.secondary_health_area benefits))).take 3

/-- The `ProductRecommendation` built for one product that passed the stock and
    threshold guards of `recommend_products`. -/
def mkRecommendation (log10f : ℕ → ℚ) (product : ProductCatalogItem)
    (quiz_input : HealthQuizInput) (llm_context : Option (List String))
    (link : String) : ProductRecommendation :=
  { product_id := product.id
    title := product.title
    description := product.description
    category := (product.categories.head?).getD "general"
    relevance_score := calculate_relevance_score log10f product quiz_input llm_context
    purchase_link := link
    rationale := _generate_rationale product quiz_input
    ingredient_highlights := _get_key_ingredients product quiz_input }

/-- The scoring loop of `recommend_products`: walk the catalog in order, skip
    out-of-stock products, score the rest, drop scores below the threshold, and
    build a recommendation per survivor. A missing slug aborts the loop with the
    raised error. -/
def buildRecs (log10f : ℕ → ℚ) (url_template : String) (quiz_input : HealthQuizInput)
    (llm_context : Option (List String)) (min_score_threshold : ℚ) :
    List ProductCatalogItem → Except String (List ProductRecommendation)
  | [] => Except.ok []
  | product :: rest =>
    if ¬product.in_stock then
      buildRecs log10f url_template quiz_input llm_context min_score_threshold rest
    else
      let score := calculate_relevance_score log10f product quiz_input llm_context
      if score < min_score_threshold then
        buildRecs log10f url_template quiz_input llm_context min_score_threshold rest
      else
        match _generate_purchase_link url_template product with
        | Except.error e => Except.error e
        | Except.ok link =>
          match buildRecs log10f url_template quiz_input llm_context min_score_threshold rest with
          | Except.error e => Except.error e
          | Except.ok recs =>
            Except.ok (mkRecommendation log10f product quiz_input llm_context link :: recs)

/-- Descending order on relevance scores, the sort key of
    `recommendations.sort(key=lambda x: x.relevance_score, reverse=True)`. -/
def scoreGE (a b : ProductRecommendation) : Prop :=
  b.relevance_score ≤ a.relevance_score

instance : DecidableRel scoreGE :=
  fun a b => inferInstanceAs (Decidable (b.relevance_score ≤ a.relevance_score))

instance : IsTotal ProductRecommendation scoreGE :=
  ⟨fun a b => (le_total b.relevance_score a.relevance_score).imp id id⟩

instance : IsTrans ProductRecommendation scoreGE :=
  ⟨fun _ _ _ hab hbc => le_trans hbc hab⟩

/-- Python `list.sort(key=..., reverse=True)` is a stable descending sort;
    modelled as stable insertion sort on `scoreGE`. -/
def sortRecs (recs : List ProductRecommendation) : List ProductRecommendation :=
  recs.insertionSort scoreGE

/-- Python slice `l[:m]` for an `int` bound `m` (negative bounds count from
    the end). -/
def pySlice (m : ℤ) (l : List α) : List α :=
  if 0 ≤ m then l.take m.toNat else l.take (l.length - (-m).toNat)

/-- `ProductRecommendationEngine.recommend_products`: score the catalog, sort
    descending by relevance score, and return the first `max_recommendations`
    items. -/
def recommend_products (log10f : ℕ → ℚ) (url_template : String)
    (catalog : List ProductCatalogItem) (quiz_input : HealthQuizInput)
    (llm_context : Option (List String)) (max_recommendations : ℤ)
    (min_score_threshold : ℚ) : Except String (List ProductRecommendation) :=
  match buildRecs log10f url_template quiz_input llm_context min_score_threshold catalog with
  | Except.error e => Except.error e
  | Except.ok recommendations => Except.ok (pySlice max_recommendations (sortRecs recommendations))

/-! ## `validate_and_correct_slugs` (`run_assign_cat.py`) -/

/-- One classification record (a dict; `best_slug`, `category_slug` and
    `sub_category_slug` default to `''` via `.get`). -/
structure ClassRecord where
  product_id : String
  best_slug : String := ""
  category_slug : String := ""
  sub_category_slug : String := ""
deriving Repr, DecidableEq

/-- One entry of `validation_report['corrections']`. -/
structure SlugCorrection where
  product_id : String
  field : String
  old : String
  new : String
  reason : String
deriving Repr, DecidableEq

/-- The `validation_report` accumulator (`total` is the record count). -/
structure ValidationReport where
  total : ℕ := 0
  valid_category : ℕ := 0
  valid_subcategory : ℕ := 0
  corrected_category : ℕ := 0
  corrected_subcategory : ℕ := 0
  invalid_category : ℕ := 0
  invalid_subcategory : ℕ := 0
  hierarchy_corrections : ℕ := 0
  corrections : List SlugCorrection := []
deriving Repr, DecidableEq

/-- Pointwise sum of two report accumulators. -/
def ValidationReport.add (r s : ValidationReport) : ValidationReport :=
  { total := r.total + s.total
    valid_category := r.valid_category + s.valid_category
    valid_subcategory := r.valid_subcategory + s.valid_subcategory
    corrected_category := r.corrected_category + s.corrected_category
    corrected_subcategory := r.corrected_subcategory + s.corrected_subcategory
    invalid_category := r.invalid_category + s.invalid_category
    invalid_subcategory := r.invalid_subcategory + s.invalid_subcategory
    hierarchy_corrections := r.hierarchy_corrections + s.hierarchy_corrections
    corrections := r.corrections ++ s.corrections }

/-- The taxonomy data precomputed at the top of `validate_and_correct_slugs`
    from the parsed taxonomy tree, plus the `taxonomy_slugs` argument. -/
structure TaxonomyEnv where
  primary_categories : List String
  subcategories : List String
  subcategory_to_parent : List (String × String)
  title_to_slug : List (String × String)
  taxonomy_slugs : List String

/-- The body of the `for c in classifications` loop of
    `validate_and_correct_slugs` for one record: the corrected record and this
    record's additions to the report (`total` counts the record itself).
    `fz` models `difflib.get_close_matches(..., n=1, cutoff=0.8)`. -/
def processRecord (env : TaxonomyEnv) (fz : String → List String → Option String)
    (c : ClassRecord) : ClassRecord × ValidationReport :=
  let best_slug := pyStrip c.best_slug
  -- NEW APPROACH: handle best_slug from the LLM and derive the hierarchy
  let step1 : ClassRecord × ValidationReport :=
    if best_slug = "" then (c, {}) else
    if best_slug ∈ env.primary_categories then
      ({ c with category_slug := best_slug, sub_category_slug := "" },
       { valid_category := 1 })
    else if best_slug ∈ env.subcategories then
      match env.subcategory_to_parent.lookup best_slug with
      | some parent_slug =>
        if parent_slug ≠ "" then
          ({ c with category_slug := parent_slug, sub_category_slug := best_slug },
           { valid_category := 1, valid_subcategory := 1 })
        else
          ({ c with category_slug := "", sub_category_slug := "" },
           { invalid_category := 1,
             corrections := [⟨c.product_id, "best_slug", best_slug, "",
               "subcategory_without_parent"⟩] })
      | none =>
        ({ c with category_slug := "", sub_category_slug := "" },
         { invalid_category := 1,
           corrections := [⟨c.product_id, "best_slug", best_slug, "",
             "subcategory_without_parent"⟩] })
    else
      match env.title_to_slug.lookup best_slug with
      | some corrected_slug =>
        let fields :=
          if corrected_slug ∈ env.primary_categories then
            { c with category_slug := corrected_slug, sub_category_slug := "" }
          else if corrected_slug ∈ env.subcategories then
            { c with
                category_slug := (env.subcategory_to_parent.lookup corrected_slug).getD ""
                sub_category_slug := corrected_slug }
          else c
        (fields,
         { corrected_category := 1,
           corrections := [⟨c.product_id, "best_slug", best_slug, corrected_slug,
             "title_to_slug_mapping"⟩] })
      | none =>
        match fz best_slug env.taxonomy_slugs with
        | some corrected_slug =>
          let fields :=
            if corrected_slug ∈ env.primary_categories then
              { c with category_slug := corrected_slug, sub_category_slug := "" }
            else if corrected_slug ∈ env.subcategories then
              { c with
                  category_slug := (env.subcategory_to_parent.lookup corrected_slug).getD ""
                  sub_category_slug := corrected_slug }
            else c
          (fields,
           { corrected_category := 1,
             corrections := [⟨c.product_id, "best_slug", best_slug, corrected_slug,
               "fuzzy_match"⟩] })
        | none =>
          ({ c with category_slug := "", sub_category_slug := "" },
           { invalid_category := 1,
             corrections := [⟨c.product_id, "best_slug", best_slug, "",
               "no_match_found"⟩] })
  -- OLD APPROACH (only when best_slug was not set)
  let c1 := step1.1
  let cat_slug := pyStrip c1.category_slug
  let subcat_slug0 := pyStrip c1.sub_category_slug
  let step2 : ClassRecord × ValidationReport :=
    if ¬(cat_slug ≠ "" ∧ best_slug = "") then (c1, {}) else
    if cat_slug ∈ env.primary_categories then
      (c1, { valid_category := 1 })
    else if cat_slug ∈ env.subcategories then
      match env.subcategory_to_parent.lookup cat_slug with
      | some parent_slug =>
        if parent_slug ≠ "" then
          ({ c1 with category_slug := parent_slug, sub_category_slug := cat_slug },
           { hierarchy_corrections := 1,
             corrections := [⟨c1.product_id, "hierarchy",
               "category=" ++ cat_slug ++ ", subcategory=" ++ subcat_slug0,
               "category=" ++ parent_slug ++ ", subcategory=" ++ cat_slug,
               "subcategory_in_category_position"⟩] })
        else
          ({ c1 with category_slug := "" },
           { invalid_category := 1,
             corrections := [⟨c1.product_id, "category_slug", cat_slug, "",
               "subcategory_without_parent"⟩] })
      | none =>
        ({ c1 with category_slug := "" },
         { invalid_category := 1,
           corrections := [⟨c1.product_id, "category_slug", cat_slug, "",
             "subcategory_without_parent"⟩] })
    else if cat_slug ∈ env.taxonomy_slugs then
      (c1, { valid_category := 1 })
    else
      match env.title_to_slug.lookup cat_slug with
      | some mapped =>
        ({ c1 with category_slug := mapped },
         { corrected_category := 1,
           corrections := [⟨c1.product_id, "category_slug", cat_slug, mapped,
             "title_to_slug_mapping"⟩] })
      | none =>
        match fz cat_slug env.taxonomy_slugs with
        | some mapped =>
          ({ c1 with category_slug := mapped },
           { corrected_category := 1,
             corrections := [⟨c1.product_id, "category_slug", cat_slug, mapped,
               "fuzzy_match"⟩] })
        | none =>
          ({ c1 with category_slug := "" },
           { invalid_category := 1,
             corrections := [⟨c1.product_id, "category_slug", cat_slug, "",
               "no_match_found"⟩] })
  -- Validate and correct the subcategory slug (re-read after the updates)
  let c2 := step2.1
  let subcat_slug := pyStrip c2.sub_category_slug
  let step3 : ClassRecord × ValidationReport :=
    if subcat_slug = "" then (c2, {}) else
    if subcat_slug ∈ env.subcategories then
      (c2, { valid_subcategory := 1 })
    else if subcat_slug ∈ env.primary_categories then
      ({ c2 with sub_category_slug := "" },
       { invalid_subcategory := 1,
         corrections := [⟨c2.product_id, "sub_category_slug", subcat_slug, "",
           "primary_category_in_subcategory_position"⟩] })
    else if subcat_slug ∈ env.taxonomy_slugs then
      (c2, { valid_subcategory := 1 })
    else
      match env.title_to_slug.lookup subcat_slug with
      | some mapped =>
        ({ c2 with sub_category_slug := mapped },
         { corrected_subcategory := 1,
           corrections := [⟨c2.product_id, "sub_category_slug", subcat_slug, mapped,
             "title_to_slug_mapping"⟩] })
      | none =>
        match fz subcat_slug env.taxonomy_slugs with
        | some mapped =>
          ({ c2 with sub_category_slug := mapped },
           { corrected_subcategory := 1,
             corrections := [⟨c2.product_id, "sub_category_slug", subcat_slug, mapped,
               "fuzzy_match"⟩] })
        | none =>
          ({ c2 with sub_category_slug := "" },
           { invalid_subcategory := 1,
             corrections := [⟨c2.product_id, "sub_category_slug", subcat_slug, "",
               "no_match_found"⟩] })
  (step3.1, { (step1.2.add (step2.2.add step3.2)) with total := 1 })

/-- `validate_and_correct_slugs`: process every record, returning the corrected
    records and the accumulated validation report (`total` is the batch size;
    corrections appear in record order). -/
def validate_and_correct_slugs (env : TaxonomyEnv)
    (fz : String → List String → Option String) :
    List ClassRecord → List ClassRecord × ValidationReport
  | [] => ([], {})
  | c :: cs =>
    let pc := processRecord env fz c
    let rest := validate_and_correct_slugs env fz cs
    (pc.1 :: rest.1, pc.2.add rest.2)

/-! ## Auxiliary definitions used by the theorems -/

/-- Recommendations with a given relevance score, in order (used to state that
    the descending sort is stable). -/
def scoreFilter (cv : ℚ) (l : List ProductRecommendation) : List ProductRecommendation :=
  l.filter (fun r => decide (r.relevance_score = cv))

/-- A concrete rational stand-in for `math.log10` (its exact values never
    matter to the claims; only sign bounds do). -/
def log10c (n : ℕ) : ℚ :=
  (Nat.log 10 n : ℚ)

/-- A fuzzy matcher that finds nothing: `difflib.get_close_matches` at cutoff
    0.8 on inputs that are nowhere near any valid slug. -/
def fzNone : String → List String → Option String :=
  fun _ _ => none

/-- A product whose six category tags all contain the keyword `immune`. -/
def prodManyTags : ProductCatalogItem :=
  { id := "1", title := "", description := "",
    categories := ["immune", "immune", "immune", "immune", "immune", "immune"],
    in_stock := true, slug := "x" }

/-- A quiz input whose primary health area is `immune_support`. -/
def quizImmune : HealthQuizInput :=
  { health_issue_description := "", primary_health_area := some "immune_support" }

/-- A quiz input that only fills the plural `primary_health_areas` list. -/
def quizPluralOnly : HealthQuizInput :=
  { health_issue_description := "trouble sleeping",
    primary_health_areas := some ["immune_support", "sleep_support"] }

/-- An in-stock catalog product with a slug. -/
def prodInStock : ProductCatalogItem :=
  { id := "10", title := "Immune Defense Tonic", description := "elderberry and echinacea blend",
    ingredients := ["elderberry", "echinacea"], categories := ["immune"],
    in_stock := true, slug := "immune-defense-tonic" }

/-- A static shop-page URL template (no placeholder). -/
def staticTemplate : String :=
  "https://example.com/shop"

/-- The default product URL template of `_generate_purchase_link`. -/
def defaultTemplate : String :=
  "https://rogueherbalist.com/product/\x7bproduct_slug\x7d/"

/-- A product with an empty slug. -/
def prodNoSlug : ProductCatalogItem :=
  { id := "42", title := "Mystery Tonic", description := "great tonic", in_stock := true,
    slug := "" }

/-- A sample taxonomy environment: one primary category with one subcategory
    (the `mood-balance` example of the spec). -/
def envTax : TaxonomyEnv :=
  { primary_categories := ["stress-mood-anxiety"]
    subcategories := ["mood-balance"]
    subcategory_to_parent := [("mood-balance", "stress-mood-anxiety")]
    title_to_slug := []
    taxonomy_slugs := ["stress-mood-anxiety", "mood-balance"] }

/-- A legacy-format record with a valid primary category slug but a junk
    subcategory slug. -/
def recLegacyJunkSub : ClassRecord :=
  { product_id := "p2", category_slug := "stress-mood-anxiety", sub_category_slug := "zzz-unknown" }

/-- A record whose `best_slug` is the known primary `stress-mood-anxiety`. -/
def recPrimary : ClassRecord :=
  { product_id := "p0", best_slug := "stress-mood-anxiety" }

/-- A record whose `best_slug` is the known subcategory `mood-balance`. -/
def recMoodBalance : ClassRecord :=
  { product_id := "p1", best_slug := "mood-balance" }

/-- A record whose `best_slug` matches nothing in the taxonomy. -/
def recUnknownSlug : ClassRecord :=
  { product_id := "p3", best_slug := "totally-unknown-xyz" }

/-! ## C9: `primary_health_areas` is always a list after construction -/

/-- C9. For every way of constructing a `HealthQuizInput` (plural list given,
    only the legacy singular `primary_health_area`, only
    `secondary_health_area`, or none of them), after `__post_init__` the
    `primary_health_areas` field is a list (possibly empty), never `None`. -/
theorem post_init_primary_areas_always_list (x : HealthQuizInput) :
    ∃ l, (HealthQuizInput.postInit x).primary_health_areas = some l := by
  unfold HealthQuizInput.postInit
  dsimp only
  split
  · exact ⟨[], rfl⟩
  · exact ⟨_, rfl⟩

/-! ## C10: the scoring engine reads only the legacy singular fields -/

/-- C10. If both legacy singular fields `primary_health_area` and
    `secondary_health_area` are `None`, `_score_category_match` returns exactly
    `(0.0, 10.0)`, regardless of the contents of the normalized
    `primary_health_areas` list. -/
theorem score_category_match_ignores_plural_list (p : ProductCatalogItem)
    (q : HealthQuizInput) (hp : q.primary_health_area = none)
    (hs : q.secondary_health_area = none) :
    _score_category_match p q = (0, 10) := by
  unfold _score_category_match categoriesToCheck
  rw [hp, hs]
  simp

/-- Witness for C10: a quiz input with a populated plural list (and a product
    with matching category tags) still yields the sub-score `(0, 10)`. -/
theorem score_category_match_ignores_plural_list_witness :
    quizPluralOnly.primary_health_area = none ∧
    quizPluralOnly.secondary_health_area = none ∧
    _score_category_match prodManyTags quizPluralOnly = (0, 10) :=
  ⟨rfl, rfl, score_category_match_ignores_plural_list prodManyTags quizPluralOnly rfl rfl⟩

/-! ## C5: empty slug makes `_generate_purchase_link` raise -/

/-- C5. When the configured product URL template contains the
    `{product_slug}` placeholder and the product's slug is the empty string,
    `_generate_purchase_link` raises a `ValueError` (modelled as
    `Except.error`); it never returns a link. -/
theorem generate_purchase_link_empty_slug_raises (url_template : String)
    (p : ProductCatalogItem) (h1 : pyIn "\x7bproduct_slug\x7d" url_template = true)
    (h2 : p.slug = "") :
    _generate_purchase_link url_template p =
      Except.error ("Product " ++ p.id ++ " (" ++ p.title ++
        ") has no slug. Ensure WooCommerce export includes slug field.") := by
  simp [_generate_purchase_link, h1, h2]

/-- Witness for C5: the default template and a slug-less product. -/
theorem generate_purchase_link_empty_slug_raises_witness :
    pyIn "\x7bproduct_slug\x7d" defaultTemplate = true ∧
    prodNoSlug.slug = "" ∧
    _generate_purchase_link defaultTemplate prodNoSlug =
      Except.error ("Product " ++ prodNoSlug.id ++ " (" ++ prodNoSlug.title ++
        ") has no slug. Ensure WooCommerce export includes slug field.") :=
  ⟨by decide, rfl,
   generate_purchase_link_empty_slug_raises defaultTemplate prodNoSlug (by decide) rfl⟩

/-! ## C1: bounds of `calculate_relevance_score` -/

/-- Every weight in `categories_to_check` is nonnegative (1 or 0.7). -/
theorem categoriesToCheck_weight_nonneg (q : HealthQuizInput) :
    ∀ hcw ∈ categoriesToCheck q, 0 ≤ hcw.2 := by
  intro hcw hmem
  unfold categoriesToCheck at hmem
  rcases List.mem_append.1 hmem with h | h
  · cases hq : q.primary_health_area with
    | none => rw [hq] at h; simp at h
    | some s =>
      rw [hq] at h
      by_cases hs : s = ""
      · simp [hs] at h
      · simp [hs] at h
        rw [h]
        norm_num
  · cases hq : q.secondary_health_area with
    | none => rw [hq] at h; simp at h
    | some s =>
      rw [hq] at h
      by_cases hs : s = ""
      · simp [hs] at h
      · simp [hs] at h
        rw [h]
        norm_num

/-- Each category check contributes a nonnegative amount. -/
theorem categoryCheckContribution_nonneg (p : ProductCatalogItem) (hcw : String × ℚ)
    (hw : 0 ≤ hcw.2) : 0 ≤ categoryCheckContribution p hcw := by
  unfold categoryCheckContribution
  dsimp only
  refine add_nonneg (by positivity) ?_
  split
  · exact mul_nonneg (le_min (by norm_num) (by positivity)) hw
  · exact le_refl 0

/-- The raw category-match sub-score is nonnegative. -/
theorem score_category_match_nonneg (p : ProductCatalogItem) (q : HealthQuizInput) :
    0 ≤ (_score_category_match p q).1 := by
  refine List.sum_nonneg ?_
  intro x hx
  obtain ⟨hcw, hm, rfl⟩ := List.mem_map.1 hx
  exact categoryCheckContribution_nonneg p hcw (categoriesToCheck_weight_nonneg q hcw hm)

/-- The area bonus is nonnegative for a nonnegative amount. -/
theorem areaBonus_nonneg (o : Option String) (benefits : List String) (k : ℚ)
    (hk : 0 ≤ k) : 0 ≤ areaBonus o benefits k := by
  unfold areaBonus
  cases o with
  | none => exact le_refl 0
  | some s =>
    dsimp only
    split
    · exact hk
    · exact le_refl 0

/-- Each ingredient contributes a nonnegative amount. -/
theorem ingredientContribution_nonneg (q : HealthQuizInput) (ctx : Option (List String))
    (ing : String) : 0 ≤ ingredientContribution q ctx ing := by
  unfold ingredientContribution
  dsimp only
  refine add_nonneg (add_nonneg ?_ ?_) (by positivity)
  · exact areaBonus_nonneg _ _ _ (by norm_num)
  · exact areaBonus_nonneg _ _ _ (by norm_num)

/-- The ingredient-match sub-score lies in `[0, 10]`. -/
theorem score_ingredient_match_bounds (p : ProductCatalogItem) (q : HealthQuizInput)
    (ctx : Option (List String)) :
    0 ≤ (_score_ingredient_match p q ctx).1 ∧ (_score_ingredient_match p q ctx).1 ≤ 10 := by
  constructor
  · refine le_min ?_ (by norm_num)
    refine List.sum_nonneg ?_
    intro x hx
    obtain ⟨ing, _, rfl⟩ := List.mem_map.1 hx
    exact ingredientContribution_nonneg q ctx ing
  · exact min_le_right _ _

/-- The text-similarity sub-score lies in `[0, 10]`. -/
theorem score_text_similarity_bounds (p : ProductCatalogItem) (q : HealthQuizInput) :
    0 ≤ (_score_text_similarity p q).1 ∧ (_score_text_similarity p q).1 ≤ 10 := by
  have key : ∀ a b : ℕ, a ≤ b →
      0 ≤ ((a : ℚ) / (b : ℚ)) * 10 ∧ ((a : ℚ) / (b : ℚ)) * 10 ≤ 10 := by
    intro a b hab
    rcases Nat.eq_zero_or_pos b with hb | hb
    · subst hb
      have : a = 0 := Nat.le_zero.1 hab
      subst this
      norm_num
    · have hb' : (0 : ℚ) < (b : ℚ) := by exact_mod_cast hb
      have hab' : (a : ℚ) ≤ (b : ℚ) := by exact_mod_cast hab
      have hdiv : (a : ℚ) / (b : ℚ) ≤ 1 := (div_le_one hb').mpr hab'
      constructor
      · positivity
      · nlinarith
  unfold _score_text_similarity
  dsimp only
  split
  · exact key _ _ (List.length_filter_le _ _)
  · norm_num

/-- The text-similarity maximum is always 10. -/
theorem score_text_similarity_snd (p : ProductCatalogItem) (q : HealthQuizInput) :
    (_score_text_similarity p q).2 = 10 := by
  unfold _score_text_similarity
  dsimp only
  split <;> rfl

/-- The quality-factors sub-score lies in `[0, 10]` when the rating (if any)
    lies in `[0, 5]` and `log10` is nonnegative on positive counts. -/
theorem score_quality_factors_bounds (log10f : ℕ → ℚ) (p : ProductCatalogItem)
    (hr : ∀ r, p.rating = some r → 0 ≤ r ∧ r ≤ 5)
    (hlog : ∀ n, 1 ≤ n → 0 ≤ log10f n) :
    0 ≤ (_score_quality_factors log10f p).1 ∧ (_score_quality_factors log10f p).1 ≤ 10 := by
  unfold _score_quality_factors
  dsimp only
  have h1 : 0 ≤ (if p.in_stock then (3 : ℚ) else 0) ∧
      (if p.in_stock then (3 : ℚ) else 0) ≤ 3 := by split <;> norm_num
  have h2 : 0 ≤ (match p.rating with
      | some r => if r ≠ 0 then (r / 5) * 4 else 0
      | none => 0) ∧
      (match p.rating with
      | some r => if r ≠ 0 then (r / 5) * 4 else 0
      | none => 0) ≤ (4 : ℚ) := by
    cases hrr : p.rating with
    | none => norm_num
    | some r =>
      obtain ⟨hr0, hr5⟩ := hr r hrr
      dsimp only
      split
      · constructor
        · positivity
        · nlinarith
      · norm_num
  have h3 : 0 ≤ (if 0 < p.review_count then min 3 (log10f p.review_count) else 0) ∧
      (if 0 < p.review_count then min 3 (log10f p.review_count) else 0) ≤ (3 : ℚ) := by
    split
    case isTrue h =>
      exact ⟨le_min (by norm_num) (hlog _ (by omega)), min_le_left _ _⟩
    case isFalse h => norm_num
  constructor
  · linarith [h1.1, h2.1, h3.1]
  · linarith [h1.2, h2.2, h3.2]

/-- `calculate_relevance_score` is the weighted raw score divided by 10
    (the weighted maxima always sum to 10, which is positive). -/
theorem calculate_relevance_score_eq (log10f : ℕ → ℚ) (p : ProductCatalogItem)
    (q : HealthQuizInput) (ctx : Option (List String)) :
    calculate_relevance_score log10f p q ctx =
      ((_score_category_match p q).1 * (4/10) + (_score_ingredient_match p q ctx).1 * (3/10) +
       (_score_text_similarity p q).1 * (2/10) +
       (_score_quality_factors log10f p).1 * (1/10)) / 10 := by
  unfold calculate_relevance_score
  dsimp only
  rw [show (_score_category_match p q).2 = 10 from rfl,
      show (_score_ingredient_match p q ctx).2 = 10 from rfl,
      score_text_similarity_snd,
      show (_score_quality_factors log10f p).2 = 10 from rfl]
  norm_num

/-- C1 (amended). `calculate_relevance_score` returns a value in `[0, 1]`
    provided the raw category sub-score does not exceed its nominal maximum 10,
    the rating (if present) lies in `[0, 5]`, and `log10` is nonnegative on
    positive review counts. (As stated for arbitrary products the claim is
    false: see the counterexample, where repeated matching category tags push
    the raw category sub-score past its nominal maximum.) -/
theorem calculate_relevance_score_bounds (log10f : ℕ → ℚ) (p : ProductCatalogItem)
    (q : HealthQuizInput) (ctx : Option (List String))
    (hr : ∀ r, p.rating = some r → 0 ≤ r ∧ r ≤ 5)
    (hlog : ∀ n, 1 ≤ n → 0 ≤ log10f n)
    (hcat : (_score_category_match p q).1 ≤ 10) :
    0 ≤ calculate_relevance_score log10f p q ctx ∧
      calculate_relevance_score log10f p q ctx ≤ 1 := by
  have hc0 := score_category_match_nonneg p q
  obtain ⟨hi0, hi1⟩ := score_ingredient_match_bounds p q ctx
  obtain ⟨ht0, ht1⟩ := score_text_similarity_bounds p q
  obtain ⟨hq0, hq1⟩ := score_quality_factors_bounds log10f p hr hlog
  rw [calculate_relevance_score_eq]
  constructor
  · have : (0 : ℚ) ≤ (_score_category_match p q).1 * 0.4 +
        (_score_ingredient_match p q ctx).1 * 0.3 +
        (_score_text_similarity p q).1 * 0.2 +
        (_score_quality_factors log10f p).1 * 0.1 := by nlinarith
    positivity
  · rw [div_le_one (by norm_num)]
    nlinarith

/-- C1 counterexample: a product with six category tags all matching the
    `immune_support` keyword set scores 1.23 > 1 against the `immune_support`
    quiz input. -/
theorem calculate_relevance_score_gt_one :
    calculate_relevance_score log10c prodManyTags quizImmune none = 123 / 100 ∧
    ¬(calculate_relevance_score log10c prodManyTags quizImmune none ≤ 1) := by
  have h1 : (_score_category_match prodManyTags quizImmune).1 = 30 := by
    simp +decide [_score_category_match, categoriesToCheck, quizImmune, prodManyTags,
      categoryCheckContribution]
    norm_num
  have h2 : (_score_ingredient_match prodManyTags quizImmune none).1 = 0 := by
    simp +decide [_score_ingredient_match, prodManyTags]
  have h3 : (_score_text_similarity prodManyTags quizImmune).1 = 0 := by
    simp +decide [_score_text_similarity, quizImmune, prodManyTags]
  have h4 : (_score_quality_factors log10c prodManyTags).1 = 3 := by
    simp +decide [_score_quality_factors, prodManyTags]
  rw [calculate_relevance_score_eq, h1, h2, h3, h4]
  norm_num

/-- Witness for the amended C1 on a concrete product and quiz input. -/
theorem calculate_relevance_score_bounds_witness :
    (∀ r, prodInStock.rating = some r → 0 ≤ r ∧ r ≤ 5) ∧
    (∀ n, 1 ≤ n → 0 ≤ log10c n) ∧
    (_score_category_match prodInStock quizImmune).1 ≤ 10 ∧
    (0 ≤ calculate_relevance_score log10c prodInStock quizImmune none ∧
     calculate_relevance_score log10c prodInStock quizImmune none ≤ 1) := by
  have h1 : ∀ r, prodInStock.rating = some r → 0 ≤ r ∧ r ≤ 5 := by
    intro r hr
    simp [prodInStock] at hr
  have h2 : ∀ n, 1 ≤ n → 0 ≤ log10c n := by
    intro n _
    exact Nat.cast_nonneg _
  have h3 : (_score_category_match prodInStock quizImmune).1 ≤ 10 := by
    have hv : (_score_category_match prodInStock quizImmune).1 = 8 := by
      simp +decide [_score_category_match, categoriesToCheck, quizImmune, prodInStock,
        categoryCheckContribution]
      norm_num
    rw [hv]
    norm_num
  exact ⟨h1, h2, h3,
    calculate_relevance_score_bounds log10c prodInStock quizImmune none h1 h2 h3⟩

/-! ## C4: scoring is monotonic in matching ingredients -/

/-- C4. Appending an ingredient whose benefits contain the quiz input's
    (truthy) primary health area to a product's ingredient list never decreases
    `calculate_relevance_score`. -/
theorem calculate_relevance_score_monotone_ingredient (log10f : ℕ → ℚ)
    (p : ProductCatalogItem) (q : HealthQuizInput) (ctx : Option (List String))
    (ing a : String) (ha : q.primary_health_area = some a) (ha' : a ≠ "")
    (hb : a ∈ get_ingredient_benefits ing) :
    calculate_relevance_score log10f p q ctx ≤
      calculate_relevance_score log10f
        { p with ingredients := p.ingredients ++ [ing] } q ctx := by
  have hcat : _score_category_match { p with ingredients := p.ingredients ++ [ing] } q =
      _score_category_match p q := rfl
  have htxt : _score_text_similarity { p with ingredients := p.ingredients ++ [ing] } q =
      _score_text_similarity p q := rfl
  have hqual : _score_quality_factors log10f { p with ingredients := p.ingredients ++ [ing] } =
      _score_quality_factors log10f p := rfl
  have hmono : (_score_ingredient_match p q ctx).1 ≤
      (_score_ingredient_match { p with ingredients := p.ingredients ++ [ing] } q ctx).1 := by
    show min ((p.ingredients.map (ingredientContribution q ctx)).sum) 10 ≤
      min (((p.ingredients ++ [ing]).map (ingredientContribution q ctx)).sum) 10
    have hsum : ((p.ingredients ++ [ing]).map (ingredientContribution q ctx)).sum =
        (p.ingredients.map (ingredientContribution q ctx)).sum +
          ingredientContribution q ctx ing := by
      simp
    rw [hsum]
    exact min_le_min (le_add_of_nonneg_right (ingredientContribution_nonneg q ctx ing)) le_rfl
  rw [calculate_relevance_score_eq, calculate_relevance_score_eq, hcat, htxt, hqual]
  have h10 : (0 : ℚ) < 10 := by norm_num
  exact (div_le_div_iff_of_pos_right h10).mpr (by nlinarith)

/-- Witness for C4: appending `echinacea` (whose benefits include
    `immune_support`) to the sample product never lowers its score against the
    `immune_support` quiz input. -/
theorem calculate_relevance_score_monotone_ingredient_witness :
    quizImmune.primary_health_area = some "immune_support" ∧
    "immune_support" ≠ "" ∧
    "immune_support" ∈ get_ingredient_benefits "echinacea" ∧
    calculate_relevance_score log10c prodInStock quizImmune none ≤
      calculate_relevance_score log10c
        { prodInStock with ingredients := prodInStock.ingredients ++ ["echinacea"] }
        quizImmune none :=
  ⟨rfl, by decide, by decide,
   calculate_relevance_score_monotone_ingredient log10c prodInStock quizImmune none
     "echinacea" "immune_support" rfl (by decide) (by decide)⟩

/-! ## C2 and C3: properties of `recommend_products` -/

/-- `scoreFilter` distributes over cons. -/
theorem scoreFilter_cons (cv : ℚ) (a : ProductRecommendation)
    (l : List ProductRecommendation) :
    scoreFilter cv (a :: l) =
      if a.relevance_score = cv then a :: scoreFilter cv l else scoreFilter cv l := by
  by_cases h : a.relevance_score = cv <;> simp [scoreFilter, h]

/-- Inserting an element with a different score leaves a score filter
    unchanged. -/
theorem scoreFilter_orderedInsert_ne (cv : ℚ) (x : ProductRecommendation)
    (l : List ProductRecommendation) (hx : x.relevance_score ≠ cv) :
    scoreFilter cv (List.orderedInsert scoreGE x l) = scoreFilter cv l := by
  induction l with
  | nil => simp [scoreFilter, List.orderedInsert, hx]
  | cons b t ih =>
    by_cases hrel : scoreGE x b
    · rw [show List.orderedInsert scoreGE x (b :: t) = x :: b :: t from by
        simp [List.orderedInsert, hrel]]
      rw [scoreFilter_cons, if_neg hx]
    · rw [show List.orderedInsert scoreGE x (b :: t) =
          b :: List.orderedInsert scoreGE x t from by simp [List.orderedInsert, hrel]]
      rw [scoreFilter_cons, scoreFilter_cons, ih]

/-- Inserting an element with the filtered score puts it in front of the other
    elements of that score (`orderedInsert` on `scoreGE` stops at the first
    element of smaller-or-equal score). -/
theorem scoreFilter_orderedInsert_eq (cv : ℚ) (x : ProductRecommendation)
    (l : List ProductRecommendation) (hx : x.relevance_score = cv) :
    scoreFilter cv (List.orderedInsert scoreGE x l) = x :: scoreFilter cv l := by
  induction l with
  | nil => simp [scoreFilter, List.orderedInsert, hx]
  | cons b t ih =>
    by_cases hrel : scoreGE x b
    · rw [show List.orderedInsert scoreGE x (b :: t) = x :: b :: t from by
        simp [List.orderedInsert, hrel]]
      rw [scoreFilter_cons, if_pos hx]
    · have hb : b.relevance_score ≠ cv := by
        intro hbc
        exact hrel (le_of_eq (hbc.trans hx.symm))
      rw [show List.orderedInsert scoreGE x (b :: t) =
          b :: List.orderedInsert scoreGE x t from by simp [List.orderedInsert, hrel]]
      rw [scoreFilter_cons, if_neg hb, ih, scoreFilter_cons, if_neg hb]

/-- The stable descending sort permutes equal-score elements nowhere: filtering
    any fixed score yields the same subsequence before and after sorting. -/
theorem scoreFilter_sortRecs (cv : ℚ) (l : List ProductRecommendation) :
    scoreFilter cv (sortRecs l) = scoreFilter cv l := by
  induction l with
  | nil => rfl
  | cons x t ih =>
    show scoreFilter cv (List.orderedInsert scoreGE x (sortRecs t)) = scoreFilter cv (x :: t)
    by_cases hx : x.relevance_score = cv
    · rw [scoreFilter_orderedInsert_eq cv x _ hx, ih, scoreFilter_cons, if_pos hx]
    · rw [scoreFilter_orderedInsert_ne cv x _ hx, ih, scoreFilter_cons, if_neg hx]

/-- Filtering a prefix yields a prefix of the filtered list. -/
theorem scoreFilter_take_isPrefixOf (cv : ℚ) (n : ℕ) (l : List ProductRecommendation) :
    scoreFilter cv (l.take n) <+: scoreFilter cv l :=
  ⟨scoreFilter cv (l.drop n), by
    unfold scoreFilter
    rw [← List.filter_append, List.take_append_drop]⟩

/-- A Python slice `l[:m]` is a `take`. -/
theorem pySlice_eq_take (m : ℤ) (l : List α) : ∃ n, pySlice m l = l.take n := by
  unfold pySlice
  split
  · exact ⟨m.toNat, rfl⟩
  · exact ⟨l.length - (-m).toNat, rfl⟩

/-- Every recommendation built by the `recommend_products` loop comes from an
    in-stock catalog product whose relevance score meets the threshold. -/
theorem buildRecs_mem (log10f : ℕ → ℚ) (tmpl : String) (q : HealthQuizInput)
    (ctx : Option (List String)) (thr : ℚ) :
    ∀ (ps : List ProductCatalogItem) (recs : List ProductRecommendation),
      buildRecs log10f tmpl q ctx thr ps = Except.ok recs →
      ∀ r ∈ recs, ∃ p, p ∈ ps ∧ p.in_stock = true ∧ r.product_id = p.id ∧
        r.relevance_score = calculate_relevance_score log10f p q ctx ∧
        thr ≤ r.relevance_score := by
  intro ps
  induction ps with
  | nil =>
    intro recs h r hr
    simp only [buildRecs, Except.ok.injEq] at h
    subst h
    simp at hr
  | cons p ps ih =>
    intro recs h r hr
    simp only [buildRecs] at h
    split at h
    case isTrue hstock =>
      obtain ⟨p', hm, h2, h3, h4, h5⟩ := ih recs h r hr
      exact ⟨p', List.mem_cons_of_mem _ hm, h2, h3, h4, h5⟩
    case isFalse hstock =>
      split at h
      case isTrue hth =>
        obtain ⟨p', hm, h2, h3, h4, h5⟩ := ih recs h r hr
        exact ⟨p', List.mem_cons_of_mem _ hm, h2, h3, h4, h5⟩
      case isFalse hth =>
        cases hl : _generate_purchase_link tmpl p with
        | error e => rw [hl] at h; simp at h
        | ok link =>
          rw [hl] at h
          cases hb : buildRecs log10f tmpl q ctx thr ps with
          | error e => rw [hb] at h; simp at h
          | ok rest =>
            rw [hb] at h
            simp only [Except.ok.injEq] at h
            subst h
            rcases List.mem_cons.1 hr with hr | hr
            · subst hr
              exact ⟨p, List.mem_cons_self _ _, of_not_not hstock, rfl, rfl,
                le_of_not_lt hth⟩
            · obtain ⟨p', hm, h2, h3, h4, h5⟩ := ih rest hb r hr
              exact ⟨p', List.mem_cons_of_mem _ hm, h2, h3, h4, h5⟩

/-- C2 (amended). Every recommendation returned by `recommend_products` comes
    from an in-stock catalog product and scores at least the threshold, and —
    whenever `max_recommendations` is nonnegative — at most
    `max_recommendations` items are returned. (As stated for every integer
    `max_recommendations` the length clause is false: a negative bound makes
    the Python slice drop items from the end of the list, whose length then
    still exceeds the negative bound; see the counterexample.) -/
theorem recommend_products_filters (log10f : ℕ → ℚ) (tmpl : String)
    (catalog : List ProductCatalogItem) (q : HealthQuizInput)
    (ctx : Option (List String)) (m : ℤ) (thr : ℚ) (out : List ProductRecommendation)
    (hout : recommend_products log10f tmpl catalog q ctx m thr = Except.ok out) :
    (∀ r ∈ out, ∃ p, p ∈ catalog ∧ p.in_stock = true ∧ r.product_id = p.id ∧
      r.relevance_score = calculate_relevance_score log10f p q ctx ∧
      thr ≤ r.relevance_score) ∧
    (0 ≤ m → (out.length : ℤ) ≤ m) := by
  unfold recommend_products at hout
  cases hb : buildRecs log10f tmpl q ctx thr catalog with
  | error e => rw [hb] at hout; simp at hout
  | ok recs =>
    rw [hb] at hout
    simp only [Except.ok.injEq] at hout
    subst hout
    constructor
    · intro r hr
      obtain ⟨n, hn⟩ := pySlice_eq_take m (sortRecs recs)
      rw [hn] at hr
      have hr' : r ∈ sortRecs recs := (List.take_sublist n _).subset hr
      have hr'' : r ∈ recs := (List.mem_insertionSort scoreGE).1 hr'
      exact buildRecs_mem log10f tmpl q ctx thr catalog recs hb r hr''
    · intro hm
      have h1 : (pySlice m (sortRecs recs)).length ≤ m.toNat := by
        unfold pySlice
        rw [if_pos hm]
        exact List.length_take_le _ _
      omega

/-- C2 counterexample: with `max_recommendations = -1` even the empty
    recommendation list is longer than the requested maximum (and a nonempty
    list would only lose its last element to the Python slice). -/
theorem recommend_products_length_counterexample :
    recommend_products log10c staticTemplate [] quizImmune none (-1) 0 = Except.ok [] ∧
    ¬((([] : List ProductRecommendation).length : ℤ) ≤ -1) := by
  constructor
  · rfl
  · decide

/-- Witness for the amended C2. -/
theorem recommend_products_filters_witness :
    recommend_products log10c staticTemplate [] quizImmune none 3 0 = Except.ok [] ∧
    (0 ≤ (3 : ℤ)) ∧ ((([] : List ProductRecommendation).length : ℤ) ≤ 3) :=
  ⟨rfl, by decide,
   (recommend_products_filters log10c staticTemplate [] quizImmune none 3 0 [] rfl).2
     (by decide)⟩

/-- C3. The list returned by `recommend_products` is the stable descending sort
    of the scored recommendations (built in catalog order), truncated: it is
    sorted non-increasingly by `relevance_score`, and for every score value the
    returned items with that score form a prefix of the equally-scored items of
    the pre-sort list, in catalog order — ties keep catalog order. -/
theorem recommend_products_sorted_stable (log10f : ℕ → ℚ) (tmpl : String)
    (catalog : List ProductCatalogItem) (q : HealthQuizInput)
    (ctx : Option (List String)) (m : ℤ) (thr : ℚ)
    (recs : List ProductRecommendation)
    (hb : buildRecs log10f tmpl q ctx thr catalog = Except.ok recs) :
    recommend_products log10f tmpl catalog q ctx m thr =
      Except.ok (pySlice m (sortRecs recs)) ∧
    List.Pairwise (fun a b => b.relevance_score ≤ a.relevance_score)
      (pySlice m (sortRecs recs)) ∧
    ∀ cv, scoreFilter cv (pySlice m (sortRecs recs)) <+: scoreFilter cv recs := by
  refine ⟨?_, ?_, ?_⟩
  · unfold recommend_products
    rw [hb]
  · obtain ⟨n, hn⟩ := pySlice_eq_take m (sortRecs recs)
    rw [hn]
    have hs : List.Pairwise scoreGE (sortRecs recs) :=
      List.sorted_insertionSort scoreGE recs
    exact hs.sublist (List.take_sublist n _)
  · intro cv
    obtain ⟨n, hn⟩ := pySlice_eq_take m (sortRecs recs)
    rw [hn]
    have h1 := scoreFilter_take_isPrefixOf cv n (sortRecs recs)
    rw [scoreFilter_sortRecs] at h1
    exact h1

/-- Witness for C3. -/
theorem recommend_products_sorted_stable_witness :
    buildRecs log10c staticTemplate quizImmune none 0 [] = Except.ok [] ∧
    recommend_products log10c staticTemplate [] quizImmune none 2 0 =
      Except.ok (pySlice 2 (sortRecs [])) ∧
    List.Pairwise (fun a b => b.relevance_score ≤ a.relevance_score)
      (pySlice 2 (sortRecs [])) ∧
    scoreFilter (7/10) (pySlice 2 (sortRecs [])) <+: scoreFilter (7/10) [] :=
  ⟨rfl,
   (recommend_products_sorted_stable log10c staticTemplate [] quizImmune none 2 0 [] rfl).1,
   (recommend_products_sorted_stable log10c staticTemplate [] quizImmune none 2 0 [] rfl).2.1,
   (recommend_products_sorted_stable log10c staticTemplate [] quizImmune none 2 0 [] rfl).2.2
     (7/10)⟩

/-! ## C6, C7, C8: the slug validator -/

/-- The head of a `dropWhile` run fails the predicate. -/
theorem dropWhile_head_false (p : Char → Bool) :
    ∀ (l : List Char) (b : Char) (bs : List Char),
      List.dropWhile p l = b :: bs → p b = false := by
  intro l
  induction l with
  | nil =>
    intro b bs h
    simp [List.dropWhile] at h
  | cons a t ih =>
    intro b bs h
    rw [List.dropWhile_cons] at h
    split at h
    next => exact ih _ _ h
    next hcond =>
      cases h
      simpa using hcond

/-- Python `str.strip()` is idempotent. -/
theorem pyStrip_idem (s : String) : pyStrip (pyStrip s) = pyStrip s := by
  have key : ∀ l : List Char,
      List.rdropWhile Char.isWhitespace
        (List.dropWhile Char.isWhitespace
          (List.rdropWhile Char.isWhitespace (List.dropWhile Char.isWhitespace l))) =
      List.rdropWhile Char.isWhitespace (List.dropWhile Char.isWhitespace l) := by
    intro l
    obtain ⟨t, ht⟩ := List.rdropWhile_prefix Char.isWhitespace
      (List.dropWhile Char.isWhitespace l)
    have hdrop : List.dropWhile Char.isWhitespace
        (List.rdropWhile Char.isWhitespace (List.dropWhile Char.isWhitespace l)) =
        List.rdropWhile Char.isWhitespace (List.dropWhile Char.isWhitespace l) := by
      cases hBeq : List.rdropWhile Char.isWhitespace
          (List.dropWhile Char.isWhitespace l) with
      | nil => simp
      | cons b bs =>
        have hA : List.dropWhile Char.isWhitespace l = b :: (bs ++ t) := by
          rw [← ht, hBeq, List.cons_append]
        have hwb : Char.isWhitespace b = false := dropWhile_head_false _ l b (bs ++ t) hA
        simp [List.dropWhile_cons, hwb]
    rw [hdrop, List.rdropWhile_idempotent]
  show String.mk (List.rdropWhile Char.isWhitespace
      (List.dropWhile Char.isWhitespace (List.rdropWhile Char.isWhitespace
        (List.dropWhile Char.isWhitespace s.data)))) =
    String.mk (List.rdropWhile Char.isWhitespace (List.dropWhile Char.isWhitespace s.data))
  exact congrArg String.mk (key s.data)

/-- `processRecord` on a record whose stripped `best_slug` is a known primary
    category slug: accept it, clear the subcategory, count one valid category,
    log nothing. -/
theorem processRecord_valid_primary (env : TaxonomyEnv)
    (fz : String → List String → Option String) (c : ClassRecord)
    (h1 : pyStrip c.best_slug ≠ "") (h2 : pyStrip c.best_slug ∈ env.primary_categories) :
    processRecord env fz c =
      ({ c with category_slug := pyStrip c.best_slug, sub_category_slug := "" },
       { total := 1, valid_category := 1 }) := by
  unfold processRecord
  dsimp only
  rw [if_neg h1, if_pos h2]
  dsimp only
  rw [if_pos (fun hc => h1 hc.2)]
  dsimp only
  rw [if_pos (show pyStrip "" = "" from rfl)]
  dsimp only
  simp [ValidationReport.add]

/-- `processRecord` on a legacy record (no `best_slug`) whose `category_slug`
    is a known primary slug and whose `sub_category_slug` is empty or a known
    subcategory slug: one valid category, no correction log entry. -/
theorem processRecord_legacy_valid (env : TaxonomyEnv)
    (fz : String → List String → Option String) (c : ClassRecord)
    (h1 : pyStrip c.best_slug = "") (h2 : pyStrip c.category_slug ≠ "")
    (h3 : pyStrip c.category_slug ∈ env.primary_categories)
    (h4 : pyStrip c.sub_category_slug = "" ∨ pyStrip c.sub_category_slug ∈ env.subcategories) :
    (processRecord env fz c).2.valid_category = 1 ∧
    (processRecord env fz c).2.corrections = [] := by
  unfold processRecord
  dsimp only
  rw [if_pos h1]
  dsimp only
  rw [if_neg (not_not_intro ⟨h2, h1⟩), if_pos h3]
  dsimp only
  by_cases hsub : pyStrip c.sub_category_slug = ""
  · rw [if_pos hsub]
    dsimp only
    simp [ValidationReport.add]
  · have h4' : pyStrip c.sub_category_slug ∈ env.subcategories := h4.resolve_left hsub
    rw [if_neg hsub, if_pos h4']
    dsimp only
    simp [ValidationReport.add]

/-- `processRecord` on a record whose stripped `best_slug` is a known
    subcategory slug with a (truthy) parent in the subcategory-to-parent map:
    the parent primary goes to `category_slug`, the subcategory to
    `sub_category_slug`; `valid_category` is counted once — but
    `valid_subcategory` is counted twice (once in the `best_slug` branch and
    once more by the subcategory re-validation pass). -/
theorem processRecord_valid_subcategory (env : TaxonomyEnv)
    (fz : String → List String → Option String) (c : ClassRecord) (p : String)
    (h1 : pyStrip c.best_slug ≠ "") (h2 : pyStrip c.best_slug ∉ env.primary_categories)
    (h3 : pyStrip c.best_slug ∈ env.subcategories)
    (h4 : env.subcategory_to_parent.lookup (pyStrip c.best_slug) = some p)
    (h5 : p ≠ "") :
    processRecord env fz c =
      ({ c with category_slug := p, sub_category_slug := pyStrip c.best_slug },
       { total := 1, valid_category := 1, valid_subcategory := 2 }) := by
  unfold processRecord
  dsimp only
  rw [if_neg h1, if_neg h2, if_pos h3, h4]
  dsimp only
  rw [if_pos h5]
  dsimp only
  rw [if_pos (fun hc => h1 hc.2)]
  dsimp only
  rw [pyStrip_idem, if_neg h1, if_pos h3]
  dsimp only
  simp [ValidationReport.add]

/-- `processRecord` on a record whose stripped `best_slug` matches no primary
    slug, no subcategory slug, no normalized title, and has no fuzzy match:
    both category fields are cleared, `invalid_category` is counted once, and
    exactly one `no_match_found` correction is logged. -/
theorem processRecord_no_match (env : TaxonomyEnv)
    (fz : String → List String → Option String) (c : ClassRecord)
    (h1 : pyStrip c.best_slug ≠ "") (h2 : pyStrip c.best_slug ∉ env.primary_categories)
    (h3 : pyStrip c.best_slug ∉ env.subcategories)
    (h4 : env.title_to_slug.lookup (pyStrip c.best_slug) = none)
    (h5 : fz (pyStrip c.best_slug) env.taxonomy_slugs = none) :
    processRecord env fz c =
      ({ c with category_slug := "", sub_category_slug := "" },
       { total := 1, invalid_category := 1,
         corrections := [⟨c.product_id, "best_slug", pyStrip c.best_slug, "",
           "no_match_found"⟩] }) := by
  unfold processRecord
  dsimp only
  rw [if_neg h1, if_neg h2, if_neg h3, h4]
  dsimp only
  rw [h5]
  dsimp only
  rw [if_pos (fun hc => h1 hc.2)]
  dsimp only
  rw [if_pos (show pyStrip "" = "" from rfl)]
  dsimp only
  simp [ValidationReport.add]

/-- Report accumulation is associative. -/
theorem ValidationReport.add_assoc (a b c : ValidationReport) :
    (a.add b).add c = a.add (b.add c) := by
  simp [ValidationReport.add, Nat.add_assoc]

/-- The empty report is a left identity. -/
theorem ValidationReport.empty_add (r : ValidationReport) :
    ({} : ValidationReport).add r = r := by
  cases r
  simp [ValidationReport.add]

/-- The empty report is a right identity. -/
theorem ValidationReport.add_empty (r : ValidationReport) :
    r.add ({} : ValidationReport) = r := by
  cases r
  simp [ValidationReport.add]

/-- `validate_and_correct_slugs` splits over list append: corrected records
    concatenate and the reports add. -/
theorem validate_append (env : TaxonomyEnv) (fz : String → List String → Option String)
    (l1 l2 : List ClassRecord) :
    validate_and_correct_slugs env fz (l1 ++ l2) =
      ((validate_and_correct_slugs env fz l1).1 ++ (validate_and_correct_slugs env fz l2).1,
       (validate_and_correct_slugs env fz l1).2.add (validate_and_correct_slugs env fz l2).2) := by
  induction l1 with
  | nil =>
    simp [validate_and_correct_slugs, ValidationReport.empty_add]
  | cons c t ih =>
    have e1 : validate_and_correct_slugs env fz ((c :: t) ++ l2) =
        ((processRecord env fz c).1 :: (validate_and_correct_slugs env fz (t ++ l2)).1,
         (processRecord env fz c).2.add (validate_and_correct_slugs env fz (t ++ l2)).2) := rfl
    have e2 : validate_and_correct_slugs env fz (c :: t) =
        ((processRecord env fz c).1 :: (validate_and_correct_slugs env fz t).1,
         (processRecord env fz c).2.add (validate_and_correct_slugs env fz t).2) := rfl
    rw [e1, e2, ih, ValidationReport.add_assoc]
    simp

/-- Every batch yields a full report: `total` is the number of records. -/
theorem validate_total (env : TaxonomyEnv) (fz : String → List String → Option String)
    (l : List ClassRecord) : (validate_and_correct_slugs env fz l).2.total = l.length := by
  induction l with
  | nil => rfl
  | cons c t ih =>
    have hpt : (processRecord env fz c).2.total = 1 := rfl
    simp only [validate_and_correct_slugs, ValidationReport.add, List.length_cons, hpt, ih]
    omega

/-- C6 (amended). Validating a record that already carries a valid
    primary-category slug — `best_slug` on the new path, or `category_slug` on
    the legacy path provided its `sub_category_slug` is empty or itself a known
    subcategory slug — appends nothing to the corrections list and increments
    `valid_category` by exactly 1. (As stated for every legacy record the
    claim is false: a legacy record with a valid `category_slug` but a junk
    `sub_category_slug` still gets a correction entry for the subcategory
    field; see the counterexample.) -/
theorem validate_valid_primary_idempotent (env : TaxonomyEnv)
    (fz : String → List String → Option String) (pre post : List ClassRecord)
    (c : ClassRecord)
    (h : (pyStrip c.best_slug ≠ "" ∧ pyStrip c.best_slug ∈ env.primary_categories) ∨
         (pyStrip c.best_slug = "" ∧ pyStrip c.category_slug ≠ "" ∧
          pyStrip c.category_slug ∈ env.primary_categories ∧
          (pyStrip c.sub_category_slug = "" ∨
           pyStrip c.sub_category_slug ∈ env.subcategories))) :
    (validate_and_correct_slugs env fz (pre ++ c :: post)).2.valid_category =
      (validate_and_correct_slugs env fz (pre ++ post)).2.valid_category + 1 ∧
    (validate_and_correct_slugs env fz (pre ++ c :: post)).2.corrections =
      (validate_and_correct_slugs env fz (pre ++ post)).2.corrections := by
  have hvc : (processRecord env fz c).2.valid_category = 1 ∧
      (processRecord env fz c).2.corrections = [] := by
    rcases h with ⟨h1, h2⟩ | ⟨h1, h2, h3, h4⟩
    · rw [processRecord_valid_primary env fz c h1 h2]
      exact ⟨rfl, rfl⟩
    · exact processRecord_legacy_valid env fz c h1 h2 h3 h4
  have hfull : (validate_and_correct_slugs env fz (pre ++ c :: post)).2 =
      (validate_and_correct_slugs env fz pre).2.add
        ((processRecord env fz c).2.add (validate_and_correct_slugs env fz post).2) := by
    rw [show pre ++ c :: post = pre ++ ([c] ++ post) from by simp]
    rw [validate_append, validate_append]
    dsimp only
    rw [show validate_and_correct_slugs env fz [c] =
        ([(processRecord env fz c).1],
         (processRecord env fz c).2.add ({} : ValidationReport)) from rfl]
    dsimp only
    rw [ValidationReport.add_empty]
  have hpp : (validate_and_correct_slugs env fz (pre ++ post)).2 =
      (validate_and_correct_slugs env fz pre).2.add
        (validate_and_correct_slugs env fz post).2 := by
    rw [validate_append]
  constructor
  · rw [hfull, hpp]
    simp only [ValidationReport.add, hvc.1]
    omega
  · rw [hfull, hpp]
    simp [ValidationReport.add, hvc.2]

/-- C6 counterexample: a legacy record whose `category_slug` is a valid primary
    slug but whose `sub_category_slug` matches nothing still produces a
    correction-log entry (while `valid_category` is incremented by 1). -/
theorem validate_valid_primary_idempotent_counterexample :
    pyStrip recLegacyJunkSub.best_slug = "" ∧
    pyStrip recLegacyJunkSub.category_slug ∈ envTax.primary_categories ∧
    (validate_and_correct_slugs envTax fzNone [recLegacyJunkSub]).2.valid_category = 1 ∧
    (validate_and_correct_slugs envTax fzNone [recLegacyJunkSub]).2.corrections ≠ [] := by
  refine ⟨rfl, ?_, ?_, ?_⟩ <;> decide

/-- Witness for the amended C6 (new path, valid primary `best_slug`). -/
theorem validate_valid_primary_idempotent_witness :
    (pyStrip recPrimary.best_slug ≠ "" ∧
     pyStrip recPrimary.best_slug ∈ envTax.primary_categories) ∧
    (validate_and_correct_slugs envTax fzNone ([] ++ recPrimary :: [])).2.valid_category =
      (validate_and_correct_slugs envTax fzNone ([] ++ [])).2.valid_category + 1 ∧
    (validate_and_correct_slugs envTax fzNone ([] ++ recPrimary :: [])).2.corrections =
      (validate_and_correct_slugs envTax fzNone ([] ++ [])).2.corrections :=
  ⟨⟨by decide, by decide⟩,
   validate_valid_primary_idempotent envTax fzNone [] [] recPrimary
     (Or.inl ⟨by decide, by decide⟩)⟩

/-- C7 (amended). A record whose stripped `best_slug` is a known subcategory
    slug with a (truthy) parent in the subcategory-to-parent map is corrected
    to `category_slug = parent`, `sub_category_slug = best_slug`;
    `valid_category` is incremented by exactly 1 — but `valid_subcategory` by
    exactly 2, not 1: the `best_slug` branch counts it once and the subsequent
    subcategory re-validation pass counts the freshly written
    `sub_category_slug` again. -/
theorem validate_valid_subcategory_counts (env : TaxonomyEnv)
    (fz : String → List String → Option String) (pre post : List ClassRecord)
    (c : ClassRecord) (p : String)
    (h1 : pyStrip c.best_slug ≠ "") (h2 : pyStrip c.best_slug ∉ env.primary_categories)
    (h3 : pyStrip c.best_slug ∈ env.subcategories)
    (h4 : env.subcategory_to_parent.lookup (pyStrip c.best_slug) = some p)
    (h5 : p ≠ "") :
    (validate_and_correct_slugs env fz (pre ++ c :: post)).1 =
      (validate_and_correct_slugs env fz pre).1 ++
        ({ c with category_slug := p, sub_category_slug := pyStrip c.best_slug } ::
          (validate_and_correct_slugs env fz post).1) ∧
    (validate_and_correct_slugs env fz (pre ++ c :: post)).2.valid_category =
      (validate_and_correct_slugs env fz (pre ++ post)).2.valid_category + 1 ∧
    (validate_and_correct_slugs env fz (pre ++ c :: post)).2.valid_subcategory =
      (validate_and_correct_slugs env fz (pre ++ post)).2.valid_subcategory + 2 := by
  have hproc := processRecord_valid_subcategory env fz c p h1 h2 h3 h4 h5
  have hsplit : validate_and_correct_slugs env fz (pre ++ c :: post) =
      ((validate_and_correct_slugs env fz pre).1 ++
        ((processRecord env fz c).1 :: (validate_and_correct_slugs env fz post).1),
       (validate_and_correct_slugs env fz pre).2.add
        ((processRecord env fz c).2.add (validate_and_correct_slugs env fz post).2)) := by
    rw [show pre ++ c :: post = pre ++ ([c] ++ post) from by simp]
    rw [validate_append, validate_append]
    rw [show validate_and_correct_slugs env fz [c] =
        ([(processRecord env fz c).1],
         (processRecord env fz c).2.add ({} : ValidationReport)) from rfl]
    dsimp only
    rw [ValidationReport.add_empty]
    simp
  have hpp : (validate_and_correct_slugs env fz (pre ++ post)).2 =
      (validate_and_correct_slugs env fz pre).2.add
        (validate_and_correct_slugs env fz post).2 := by
    rw [validate_append]
  refine ⟨?_, ?_, ?_⟩
  · rw [hsplit, hproc]
  · rw [hsplit, hpp]
    simp only [ValidationReport.add, hproc]
    omega
  · rw [hsplit, hpp]
    simp only [ValidationReport.add, hproc]
    omega

/-- C7 counterexample: on the spec's own `mood-balance` example the category
    fields come out right but `valid_subcategory` is incremented by 2, not by
    exactly one. -/
theorem validate_valid_subcategory_counts_counterexample :
    (validate_and_correct_slugs envTax fzNone [recMoodBalance]).1 =
      [{ recMoodBalance with
          category_slug := "stress-mood-anxiety"
          sub_category_slug := "mood-balance" }] ∧
    (validate_and_correct_slugs envTax fzNone [recMoodBalance]).2.valid_category = 1 ∧
    (validate_and_correct_slugs envTax fzNone [recMoodBalance]).2.valid_subcategory = 2 ∧
    (validate_and_correct_slugs envTax fzNone [recMoodBalance]).2.valid_subcategory ≠ 1 := by
  refine ⟨?_, ?_, ?_, ?_⟩ <;> decide

/-- Witness for the amended C7 on the `mood-balance` example. -/
theorem validate_valid_subcategory_counts_witness :
    (pyStrip recMoodBalance.best_slug ≠ "" ∧
     pyStrip recMoodBalance.best_slug ∉ envTax.primary_categories ∧
     pyStrip recMoodBalance.best_slug ∈ envTax.subcategories ∧
     envTax.subcategory_to_parent.lookup (pyStrip recMoodBalance.best_slug) =
       some "stress-mood-anxiety" ∧
     "stress-mood-anxiety" ≠ "") ∧
    (validate_and_correct_slugs envTax fzNone ([] ++ recMoodBalance :: [])).1 =
      (validate_and_correct_slugs envTax fzNone []).1 ++
        ({ recMoodBalance with
            category_slug := "stress-mood-anxiety"
            sub_category_slug := pyStrip recMoodBalance.best_slug } ::
          (validate_and_correct_slugs envTax fzNone []).1) ∧
    (validate_and_correct_slugs envTax fzNone ([] ++ recMoodBalance :: [])).2.valid_category =
      (validate_and_correct_slugs envTax fzNone ([] ++ [])).2.valid_category + 1 ∧
    (validate_and_correct_slugs envTax fzNone ([] ++ recMoodBalance :: [])).2.valid_subcategory =
      (validate_and_correct_slugs envTax fzNone ([] ++ [])).2.valid_subcategory + 2 :=
  ⟨⟨by decide, by decide, by decide, by decide, by decide⟩,
   (validate_valid_subcategory_counts envTax fzNone [] [] recMoodBalance
     "stress-mood-anxiety" (by decide) (by decide) (by decide) (by decide) (by decide)).1,
   (validate_valid_subcategory_counts envTax fzNone [] [] recMoodBalance
     "stress-mood-anxiety" (by decide) (by decide) (by decide) (by decide) (by decide)).2.1,
   (validate_valid_subcategory_counts envTax fzNone [] [] recMoodBalance
     "stress-mood-anxiety" (by decide) (by decide) (by decide) (by decide) (by decide)).2.2⟩

/-- C8. A record whose stripped, nonempty `best_slug` matches no primary slug,
    no subcategory slug, no normalized title and has no fuzzy match: both
    category fields are cleared, exactly one `no_match_found` correction is
    appended for it, `invalid_category` is incremented by exactly 1, and the
    batch still completes with a full report (`total` equals the batch size —
    the validator is a total function, no exception escapes). -/
theorem validate_no_match_clears_and_logs (env : TaxonomyEnv)
    (fz : String → List String → Option String) (pre post : List ClassRecord)
    (c : ClassRecord)
    (h1 : pyStrip c.best_slug ≠ "") (h2 : pyStrip c.best_slug ∉ env.primary_categories)
    (h3 : pyStrip c.best_slug ∉ env.subcategories)
    (h4 : env.title_to_slug.lookup (pyStrip c.best_slug) = none)
    (h5 : fz (pyStrip c.best_slug) env.taxonomy_slugs = none) :
    (processRecord env fz c).1.category_slug = "" ∧
    (processRecord env fz c).1.sub_category_slug = "" ∧
    (processRecord env fz c).2.invalid_category = 1 ∧
    (processRecord env fz c).2.corrections =
      [⟨c.product_id, "best_slug", pyStrip c.best_slug, "", "no_match_found"⟩] ∧
    (validate_and_correct_slugs env fz (pre ++ c :: post)).2.invalid_category =
      (validate_and_correct_slugs env fz (pre ++ post)).2.invalid_category + 1 ∧
    (validate_and_correct_slugs env fz (pre ++ c :: post)).2.corrections =
      (validate_and_correct_slugs env fz pre).2.corrections ++
        (⟨c.product_id, "best_slug", pyStrip c.best_slug, "", "no_match_found"⟩ ::
          (validate_and_correct_slugs env fz post).2.corrections) ∧
    (validate_and_correct_slugs env fz (pre ++ c :: post)).2.total =
      (pre ++ c :: post).length := by
  have hproc := processRecord_no_match env fz c h1 h2 h3 h4 h5
  have hfull : (validate_and_correct_slugs env fz (pre ++ c :: post)).2 =
      (validate_and_correct_slugs env fz pre).2.add
        ((processRecord env fz c).2.add (validate_and_correct_slugs env fz post).2) := by
    rw [show pre ++ c :: post = pre ++ ([c] ++ post) from by simp]
    rw [validate_append, validate_append]
    dsimp only
    rw [show validate_and_correct_slugs env fz [c] =
        ([(processRecord env fz c).1],
         (processRecord env fz c).2.add ({} : ValidationReport)) from rfl]
    dsimp only
    rw [ValidationReport.add_empty]
  have hpp : (validate_and_correct_slugs env fz (pre ++ post)).2 =
      (validate_and_correct_slugs env fz pre).2.add
        (validate_and_correct_slugs env fz post).2 := by
    rw [validate_append]
  refine ⟨by rw [hproc], by rw [hproc], by rw [hproc], by rw [hproc], ?_, ?_, ?_⟩
  · rw [hfull, hpp]
    simp only [ValidationReport.add, hproc]
    omega
  · rw [hfull]
    simp [ValidationReport.add, hproc]
  · exact validate_total env fz (pre ++ c :: post)

/-- Witness for C8 on the `totally-unknown-xyz` example. -/
theorem validate_no_match_clears_and_logs_witness :
    (pyStrip recUnknownSlug.best_slug ≠ "" ∧
     pyStrip recUnknownSlug.best_slug ∉ envTax.primary_categories ∧
     pyStrip recUnknownSlug.best_slug ∉ envTax.subcategories ∧
     envTax.title_to_slug.lookup (pyStrip recUnknownSlug.best_slug) = none ∧
     fzNone (pyStrip recUnknownSlug.best_slug) envTax.taxonomy_slugs = none) ∧
    (processRecord envTax fzNone recUnknownSlug).1.category_slug = "" ∧
    (processRecord envTax fzNone recUnknownSlug).1.sub_category_slug = "" ∧
    (processRecord envTax fzNone recUnknownSlug).2.invalid_category = 1 ∧
    (processRecord envTax fzNone recUnknownSlug).2.corrections =
      [⟨recUnknownSlug.product_id, "best_slug", pyStrip recUnknownSlug.best_slug, "",
        "no_match_found"⟩] ∧
    (validate_and_correct_slugs envTax fzNone ([] ++ recUnknownSlug :: [])).2.total =
      ([] ++ recUnknownSlug :: []).length :=
  ⟨⟨by decide, by decide, by decide, by decide, rfl⟩,
   (validate_no_match_clears_and_logs envTax fzNone [] [] recUnknownSlug
     (by decide) (by decide) (by decide) (by decide) rfl).1,
   (validate_no_match_clears_and_logs envTax fzNone [] [] recUnknownSlug
     (by decide) (by decide) (by decide) (by decide) rfl).2.1,
   (validate_no_match_clears_and_logs envTax fzNone [] [] recUnknownSlug
     (by decide) (by decide) (by decide) (by decide) rfl).2.2.1,
   (validate_no_match_clears_and_logs envTax fzNone [] [] recUnknownSlug
     (by decide) (by decide) (by decide) (by decide) rfl).2.2.2.1,
   (validate_no_match_clears_and_logs envTax fzNone [] [] recUnknownSlug
     (by decide) (by decide) (by decide) (by decide) rfl).2.2.2.2.2.2⟩
